import Mathlib

/-!
Shallow embedding of the Mouse_fmriPype BOLD-preprocessing pipeline:
the nipype workflow graphs built by `init_bold_confs_wf`
(src/preprocess_bold_pkg/confounds.py) and `init_func_preproc_wf`
(src/preprocess_bold_pkg/main_wf.py), the memory estimator
`_create_mem_gb`, and a functional model of the confound-regression
interface `ConfoundRegression._run_interface` together with its helpers
`write_confound_csv`, `clean_bold`, `extract_rigid_movpar` and
`extract_mask_trace`.
-/

/-- A directed binding from one node's output port to another node's
input port, as produced by `workflow.connect` in nipype. -/
structure Edge where
  srcNode : String
  srcPort : String
  dstNode : String
  dstPort : String
deriving DecidableEq, Repr

/-- A node of a nipype workflow: its name, the interface class (or nested
workflow) it instantiates, and the boolean constructor arguments fixed at
construction time. -/
structure WfNode where
  name : String
  kind : String
  boolArgs : List (String × Bool)
deriving DecidableEq, Repr

/-- A nipype workflow: a named container of nodes plus connection edges. -/
structure Workflow where
  name : String
  nodes : List WfNode
  edges : List Edge
deriving DecidableEq, Repr

/-- `workflow.connect` takes a list of (source node, destination node,
list of (source port, destination port)) triples and adds one edge per
port pair. -/
def connect (pairs : List (String × String × List (String × String))) : List Edge :=
  pairs.flatMap (fun p => p.2.2.map (fun q => ⟨p.1, q.1, p.2.1, q.2⟩))

/-- Edges of `wf` whose destination is the given node and input port. -/
def inEdges (wf : Workflow) (node port : String) : List Edge :=
  wf.edges.filter (fun e => e.dstNode == node && e.dstPort == port)

/-- `init_bold_confs_wf` from src/preprocess_bold_pkg/confounds.py:
builds the confound sub-workflow; a second `GSR_confound_regression`
node and its edges are added only when `apply_GSR` is true. -/
def init_bold_confs_wf (apply_GSR : Bool) (name : String) : Workflow :=
  let base_nodes : List WfNode :=
    [ ⟨"inputnode", "IdentityInterface", []⟩,
      ⟨"outputnode", "IdentityInterface", []⟩,
      ⟨"WM_mask_EPI", "MaskEPI", [("use_transforms", false)]⟩,
      ⟨"CSF_mask_EPI", "MaskEPI", [("use_transforms", false)]⟩,
      ⟨"Brain_mask_EPI", "MaskEPI", [("use_transforms", false)]⟩,
      ⟨"prop_labels_EPI", "MaskEPI", [("use_transforms", false)]⟩,
      ⟨"skullstrip", "Skullstrip", []⟩,
      ⟨"confound_regression", "ConfoundRegression",
        [("apply_GSR", false), ("motioncorr_24params", false)]⟩ ]
  let gsr_nodes : List WfNode :=
    if apply_GSR then
      [ ⟨"GSR_confound_regression", "ConfoundRegression",
          [("apply_GSR", true), ("motioncorr_24params", false)]⟩ ]
    else []
  let base_edges : List Edge :=
    connect
      [ ("inputnode", "WM_mask_EPI",
          [("WM_mask", "mask"), ("ref_bold", "ref_EPI")]),
        ("inputnode", "CSF_mask_EPI",
          [("CSF_mask", "mask"), ("ref_bold", "ref_EPI")]),
        ("inputnode", "Brain_mask_EPI",
          [("t1_mask", "mask"), ("ref_bold", "ref_EPI")]),
        ("inputnode", "prop_labels_EPI",
          [("t1_labels", "mask"), ("ref_bold", "ref_EPI")]),
        ("inputnode", "confound_regression",
          [("movpar_file", "movpar_file")]),
        ("inputnode", "skullstrip",
          [("bold", "in_file")]),
        ("Brain_mask_EPI", "skullstrip",
          [("EPI_mask", "brain_mask")]),
        ("skullstrip", "confound_regression",
          [("skullstrip_brain", "bold")]),
        ("WM_mask_EPI", "confound_regression",
          [("EPI_mask", "WM_mask")]),
        ("CSF_mask_EPI", "confound_regression",
          [("EPI_mask", "CSF_mask")]),
        ("Brain_mask_EPI", "confound_regression",
          [("EPI_mask", "brain_mask")]),
        ("prop_labels_EPI", "outputnode",
          [("EPI_mask", "EPI_labels")]),
        ("confound_regression", "outputnode",
          [("cleaned_bold", "cleaned_bold"), ("confounds_csv", "confounds_csv")]) ]
  let gsr_edges : List Edge :=
    if apply_GSR then
      connect
        [ ("inputnode", "GSR_confound_regression",
            [("movpar_file", "movpar_file")]),
          ("skullstrip", "GSR_confound_regression",
            [("skullstrip_brain", "bold")]),
          ("WM_mask_EPI", "GSR_confound_regression",
            [("EPI_mask", "WM_mask")]),
          ("CSF_mask_EPI", "GSR_confound_regression",
            [("EPI_mask", "CSF_mask")]),
          ("Brain_mask_EPI", "GSR_confound_regression",
            [("EPI_mask", "brain_mask")]),
          ("GSR_confound_regression", "outputnode",
            [("cleaned_bold", "GSR_cleaned_bold")]) ]
    else []
  ⟨name, base_nodes ++ gsr_nodes, base_edges ++ gsr_edges⟩

example :
    (inEdges (init_bold_confs_wf true "bold_confs_wf") "outputnode" "confounds_csv").length
      = 1 := by decide

/-- `init_func_preproc_wf` from src/preprocess_bold_pkg/main_wf.py: the
main functional-preprocessing workflow graph.  Nested sub-workflows
(`bold_reference_wf`, `bias_cor_wf`, `bold_stc_wf`, `bold_hmc_wf`,
`bold_reg_wf`, `bold_bold_trans_wf`, `bold_confs_wf`) appear as opaque
nodes; their constructor flags are recorded as node arguments.  The
`bold_stc_wf` node and its edges exist only when `apply_STC` is true;
otherwise `boldbuffer` is fed directly from `bold_reference_wf`. -/
def init_func_preproc_wf (use_syn : Bool) (apply_STC : Bool)
    (iterative_N4 : Bool) (apply_GSR : Bool) : Workflow :=
  let base_nodes : List WfNode :=
    [ ⟨"inputnode", "IdentityInterface", []⟩,
      ⟨"outputnode", "IdentityInterface", []⟩,
      ⟨"bold_reference_wf", "Workflow", []⟩,
      ⟨"bias_cor_wf", "Workflow", [("iterative", iterative_N4)]⟩,
      ⟨"boldbuffer", "IdentityInterface", []⟩,
      ⟨"bold_hmc_wf", "Workflow", []⟩,
      ⟨"bold_reg_wf", "Workflow", [("SyN_reg", use_syn)]⟩,
      ⟨"bold_bold_trans_wf", "Workflow", [("use_fieldwarp", true)]⟩,
      ⟨"bold_confs_wf", "Workflow", [("apply_GSR", apply_GSR)]⟩ ]
  let stc_nodes : List WfNode :=
    if apply_STC then [⟨"bold_stc_wf", "Workflow", []⟩] else []
  let base_edges : List Edge :=
    connect
      [ ("inputnode", "bold_reference_wf",
          [("bold_file", "inputnode.bold_file")]),
        ("bold_reference_wf", "bias_cor_wf",
          [("outputnode.ref_image", "inputnode.ref_EPI")]),
        ("inputnode", "bias_cor_wf",
          [("anat_preproc", "inputnode.anat"), ("anat_mask", "inputnode.anat_mask")]),
        ("bold_reference_wf", "bold_hmc_wf",
          [("outputnode.ref_image", "inputnode.ref_image"),
           ("outputnode.bold_file", "inputnode.bold_file")]),
        ("bold_hmc_wf", "outputnode",
          [("outputnode.xforms", "hmc_xforms"),
           ("outputnode.movpar_file", "hmc_movpar_file")]),
        ("bold_reference_wf", "outputnode",
          [("outputnode.ref_image", "bold_ref")]),
        ("inputnode", "outputnode",
          [("bold_file", "bold_file")]),
        ("inputnode", "bold_reg_wf",
          [("anat_preproc", "inputnode.anat_preproc"),
           ("anat_mask", "inputnode.anat_mask")]),
        ("bold_reg_wf", "outputnode",
          [("outputnode.itk_bold_to_anat", "itk_bold_to_anat"),
           ("outputnode.itk_anat_to_bold", "itk_anat_to_bold"),
           ("outputnode.output_warped_bold", "output_warped_bold")]),
        ("boldbuffer", "bold_bold_trans_wf",
          [("bold_file", "inputnode.bold_file")]),
        ("inputnode", "bold_bold_trans_wf",
          [("bold_file", "inputnode.name_source")]),
        ("bold_hmc_wf", "bold_bold_trans_wf",
          [("outputnode.xforms", "inputnode.hmc_xforms")]),
        ("bold_bold_trans_wf", "outputnode",
          [("outputnode.bold_ref", "resampled_ref_bold"),
           ("outputnode.bold", "resampled_bold")]),
        ("inputnode", "bold_confs_wf",
          [("anat_mask", "inputnode.t1_mask"),
           ("WM_mask", "inputnode.WM_mask"),
           ("CSF_mask", "inputnode.CSF_mask"),
           ("anat_labels", "inputnode.t1_labels")]),
        ("bold_bold_trans_wf", "bold_confs_wf",
          [("outputnode.bold", "inputnode.bold"),
           ("outputnode.bold_ref", "inputnode.ref_bold")]),
        ("bold_hmc_wf", "bold_confs_wf",
          [("outputnode.movpar_file", "inputnode.movpar_file")]),
        ("bold_confs_wf", "outputnode",
          [("outputnode.cleaned_bold", "cleaned_bold"),
           ("outputnode.GSR_cleaned_bold", "GSR_cleaned_bold"),
           ("outputnode.EPI_labels", "EPI_labels"),
           ("outputnode.confounds_csv", "confounds_csv")]) ]
  let stc_edges : List Edge :=
    if apply_STC then
      connect
        [ ("bold_reference_wf", "bold_stc_wf",
            [("outputnode.skip_vols", "inputnode.skip_vols"),
             ("outputnode.bold_file", "inputnode.bold_file")]),
          ("bold_stc_wf", "boldbuffer",
            [("outputnode.stc_file", "bold_file")]) ]
    else
      connect
        [ ("bold_reference_wf", "boldbuffer",
            [("outputnode.bold_file", "bold_file")]) ]
  let tail_edges : List Edge :=
    connect
      [ ("bias_cor_wf", "bold_reg_wf",
          [("outputnode.corrected_EPI", "inputnode.ref_bold_brain")]),
        ("bold_reg_wf", "bold_bold_trans_wf",
          [("outputnode.itk_bold_to_anat", "inputnode.fieldwarp")]) ]
  ⟨"main_wf", base_nodes ++ stc_nodes, base_edges ++ stc_edges ++ tail_edges⟩

/-- The memory estimates returned by `_create_mem_gb` in
src/preprocess_bold_pkg/main_wf.py. -/
structure MemGb where
  filesize : ℚ
  resampled : ℚ
  largemem : ℚ
deriving DecidableEq, Repr

/-- `_create_mem_gb` from src/preprocess_bold_pkg/main_wf.py: derives the
series length and per-stage memory budgets from the input file's byte
size and the series' last-dimension length. -/
def create_mem_gb (bold_size_bytes : ℚ) (bold_tlen : ℕ) : ℕ × MemGb :=
  let bold_size_gb : ℚ := bold_size_bytes / 1024 ^ 3
  (bold_tlen,
    { filesize := bold_size_gb
      resampled := bold_size_gb * 4
      largemem := bold_size_gb * (max ((bold_tlen : ℚ) / 100) 1 + 4) })

/-- The nilearn cleaning parameters fixed inside `clean_bold`
(src/preprocess_bold_pkg/confounds.py):
`nilearn.image.clean_img(bold, detrend=True, standardize=True,
high_pass=0.01, confounds=confounds_array, t_r=1.2)`. -/
structure CleanParams where
  detrend : Bool
  standardize : Bool
  high_pass : ℚ
  t_r : ℚ
deriving DecidableEq, Repr

/-- The numeric parameters threaded through `init_func_preproc_wf`:
the repetition time `TR` reaches `init_bold_stc_wf` (only when
`apply_STC` is true), while the confound-regression cleaning step uses
the constants hard-coded in `clean_bold`. -/
structure PipelineParams where
  stc_TR : Option ℚ
  confound_clean : CleanParams
deriving DecidableEq, Repr

/-- Parameter record of `clean_bold` (src/preprocess_bold_pkg/confounds.py,
lines 141-149). -/
def clean_bold_params : CleanParams :=
  { detrend := true, standardize := true, high_pass := 1 / 100, t_r := 12 / 10 }

/-- The kernel width of `nilearn.image.smooth_img(regressed_bold, 0.3)`
applied after the regression in `clean_bold`. -/
def clean_bold_smooth_fwhm : ℚ := 3 / 10

/-- Numeric-parameter threading of `init_func_preproc_wf`
(src/preprocess_bold_pkg/main_wf.py): `TR` is passed to
`init_bold_stc_wf(TR=TR)` when `apply_STC`, and the confound cleaning
uses `clean_bold`'s constants. -/
def init_func_preproc_params (apply_STC : Bool) (TR : ℚ) : PipelineParams :=
  { stc_TR := if apply_STC then some TR else none
    confound_clean := clean_bold_params }

/-!
Functional model of `ConfoundRegression._run_interface`
(src/preprocess_bold_pkg/confounds.py, lines 107-126) and its helpers.

A BOLD series is a list of time-volumes, each volume a list of voxel
intensities; a mask is a boolean per voxel of the same grid; the
motion-parameter file is given as its parsed CSV rows (lists of numeric
fields).  Failures of the underlying numpy/nilearn operations (empty
mask in `nilearn.masking.apply_mask`, shape errors in numpy assignment
and indexing) surface as `RegressionError` values; an erroring run
produces no output at all, in particular no confound table.
-/

/-- The run-time failures of the confound-regression engine. -/
inductive RegressionError where
  /-- `nilearn.masking.apply_mask` rejects an all-zero (empty) mask. -/
  | emptyMask : RegressionError
  /-- numpy refuses to broadcast the motion-parameter block onto the
  confound matrix when the row counts are incompatible. -/
  | broadcastMismatch : RegressionError
  /-- out-of-bounds column write in `extract_rigid_movpar` (a data row
  with more than 8 fields). -/
  | indexError : RegressionError
  /-- `np.zeros` with a negative first dimension (empty CSV). -/
  | valueError : RegressionError
deriving DecidableEq, Repr

/-- The voxels of one volume selected by a mask. -/
def maskedVoxels (volume : List ℚ) (mask : List Bool) : List ℚ :=
  (volume.zip mask).filterMap (fun p => if p.2 then some p.1 else none)

/-- `extract_mask_trace` (confounds.py, lines 169-174):
`nilearn.masking.apply_mask(bold, mask)` then `np.mean(mask_signal, 1)` —
the mean masked intensity of each time-volume.  `apply_mask` rejects an
empty mask. -/
def extract_mask_trace (bold : List (List ℚ)) (mask : List Bool) :
    Except RegressionError (List ℚ) :=
  if mask.count true = 0 then .error .emptyMask
  else .ok (bold.map (fun vol =>
    (maskedVoxels vol mask).sum / (maskedVoxels vol mask).length))

/-- One output row of `extract_rigid_movpar`: the loop
`for i in range(2, len(row)): movpar[j, i-2] = float(row[i])` over a row
of a zero-initialised 6-column matrix. -/
def movparRow (row : List ℚ) : List ℚ :=
  (List.range 6).map (fun k => row.getD (k + 2) 0)

/-- `extract_rigid_movpar` (confounds.py, lines 152-166): drop the
header row, and for every remaining row write fields 2.. into columns
0.. of a zero-initialised `(rows-1) × 6` matrix.  A data row with more
than 8 fields writes past column 5 (IndexError); an empty CSV makes
`np.zeros([-1, 6])` fail. -/
def extract_rigid_movpar (rows : List (List ℚ)) :
    Except RegressionError (List (List ℚ)) :=
  if rows.isEmpty then .error .valueError
  else if (rows.drop 1).any (fun row => decide (8 < row.length)) then
    .error .indexError
  else .ok ((rows.drop 1).map movparRow)

/-- numpy broadcasting of the assignment `confounds[:, 3:9] = movpar`
onto `n` target rows: an equal row count assigns row-wise, a single row
is silently replicated onto every target row, anything else raises. -/
def broadcastRows (n : ℕ) (m : List (List ℚ)) :
    Except RegressionError (List (List ℚ)) :=
  if m.length = n then .ok m
  else if m.length = 1 then .ok (List.replicate n (m.headD []))
  else .error .broadcastMismatch

/-- The confound matrix assembly of `_run_interface` (lines 109-115):
`confounds = np.zeros([np.size(WM_signal, 0), num_confounds])` with
columns 0, 1, 2 set to the WM, CSF and whole-brain traces and columns
3-8 to the motion parameters. -/
def buildConfounds (wm csf gs : List ℚ) (mov : List (List ℚ)) :
    List (List ℚ) :=
  (List.range wm.length).map (fun j =>
    [wm.getD j 0, csf.getD j 0, gs.getD j 0] ++ mov.getD j (List.replicate 6 0))

/-- The column labels assigned at line 116 of confounds.py. -/
def csv_columns : List String :=
  ["WM_signal", "CSF_signal", "global_signal",
   "mov1", "mov2", "mov3", "rot1", "rot2", "rot3"]

/-- The persisted confound table: `write_confound_csv` builds a pandas
`DataFrame` and calls `to_csv`, which writes a header line (an empty
cell for the unnamed index followed by the column names) and one line
per row (the integer index followed by the row's values). -/
structure ConfoundCsv where
  header : List String
  rows : List (ℕ × List ℚ)
deriving DecidableEq, Repr

/-- `write_confound_csv` (confounds.py, lines 132-139). -/
def write_confound_csv (confound_array : List (List ℚ))
    (column_names : List String) : ConfoundCsv :=
  { header := [""] ++ column_names
    rows := (List.range confound_array.length).zip confound_array }

/-- Modelled from the spec: reading back the persisted confound table
("writing then reading the confound table yields the same 9 columns in
the same order with row count equal to series volume count").  No reader
of confounds.csv exists in the repository; this models the standard way
a pandas-written table is read back, recognising the leading unnamed
index column and returning the named columns and the data matrix. -/
def read_confound_table (f : ConfoundCsv) : List String × List (List ℚ) :=
  (f.header.drop 1, f.rows.map Prod.snd)

/-- An invocation of the external regression backend: `clean_bold`
(confounds.py, lines 141-149) hands the series and the selected
confound columns to `nilearn.image.clean_img` with fixed parameters and
smooths the residual. -/
structure CleanInvocation where
  bold : List (List ℚ)
  confounds : List (List ℚ)
  params : CleanParams
  smooth_fwhm : ℚ
deriving DecidableEq, Repr

/-- `clean_bold` (confounds.py, lines 141-149). -/
def clean_bold (bold confounds_array : List (List ℚ)) : CleanInvocation :=
  { bold := bold, confounds := confounds_array
    params := clean_bold_params, smooth_fwhm := clean_bold_smooth_fwhm }

/-- numpy concatenated index ranges: `np.r_[a:b, c:d]`. -/
def np_r2 (a b c d : ℕ) : List ℕ :=
  ((List.range (b - a)).map (· + a)) ++ ((List.range (d - c)).map (· + c))

/-- numpy fancy column indexing `m[:, cols]` (out-of-range columns read
the zero fill, which never happens on the 9-column matrix). -/
def selectColumns (m : List (List ℚ)) (cols : List ℕ) : List (List ℚ) :=
  m.map (fun row => cols.map (fun c => row.getD c 0))

/-- The column subset handed to `clean_bold` at lines 119-122:
all 9 columns when `apply_GSR`, else `confounds[:, np.r_[0:3, 4:9]]`. -/
def regressed_columns (apply_GSR : Bool) : List ℕ :=
  if apply_GSR then List.range 9 else np_r2 0 3 4 9

/-- The outputs set by `_run_interface`. -/
structure RunResult where
  cleaned_bold : CleanInvocation
  confounds_csv : ConfoundCsv
deriving DecidableEq, Repr

/-- Lines 110-115 of `_run_interface`: extract the three mask traces
(WM first, then CSF, then whole-brain), parse the motion parameters and
broadcast them onto the `np.size(WM_signal, 0)` confound rows. -/
def assemble_confounds (bold : List (List ℚ)) (movpar_file : List (List ℚ))
    (brain_mask WM_mask CSF_mask : List Bool) :
    Except RegressionError (List (List ℚ)) := do
  let WM_signal ← extract_mask_trace bold WM_mask
  let CSF_signal ← extract_mask_trace bold CSF_mask
  let global_signal ← extract_mask_trace bold brain_mask
  let movpar ← extract_rigid_movpar movpar_file
  let movparB ← broadcastRows WM_signal.length movpar
  pure (buildConfounds WM_signal CSF_signal global_signal movparB)

/-- `ConfoundRegression._run_interface` (confounds.py, lines 107-126):
assemble the confound matrix, persist the full matrix with the fixed
labels, and clean the series with either all columns (`apply_GSR`) or
the `np.r_[0:3, 4:9]` subset. -/
def ConfoundRegression_run (bold : List (List ℚ))
    (movpar_file : List (List ℚ)) (brain_mask WM_mask CSF_mask : List Bool)
    (apply_GSR : Bool) : Except RegressionError RunResult :=
  (assemble_confounds bold movpar_file brain_mask WM_mask CSF_mask).map
    (fun confounds =>
      { confounds_csv := write_confound_csv confounds csv_columns
        cleaned_bold :=
          if apply_GSR then clean_bold bold confounds
          else clean_bold bold (selectColumns confounds (np_r2 0 3 4 9)) })

example : regressed_columns false = [0, 1, 2, 4, 5, 6, 7, 8] := by decide
example : regressed_columns true = [0, 1, 2, 3, 4, 5, 6, 7, 8] := by decide

/-- Whether an `Except` computation succeeded. -/
def exceptOk {ε α : Type _} (e : Except ε α) : Bool :=
  match e with
  | .ok _ => true
  | .error _ => false

/-- The confound table produced by `_run_interface` does not depend on
the `apply_GSR` flag: the flag only selects which columns are handed to
`clean_bold` afterwards. -/
theorem confounds_csv_flag_indep (bold movpar : List (List ℚ))
    (bm wm cm : List Bool) (g g' : Bool) :
    (ConfoundRegression_run bold movpar bm wm cm g).map (fun r => r.confounds_csv)
      = (ConfoundRegression_run bold movpar bm wm cm g').map (fun r => r.confounds_csv) := by
  unfold ConfoundRegression_run
  cases assemble_confounds bold movpar bm wm cm <;> rfl

/-- C1: the claim says that with global-signal regression disabled the
engine excludes exactly the whole-brain column (index 2) and regresses
out columns {0,1,3,4,5,6,7,8}.  The code selects
`confounds[:, np.r_[0:3, 4:9]]`, i.e. columns [0,1,2,4,5,6,7,8]: the
whole-brain/global-signal column (index 2) is KEPT and the first
translation column (index 3) is dropped instead, contradicting the
flag's own description ("Use global signal regression or not") and the
`global_signal` column label.  With the flag enabled all 9 columns are
used, as claimed. -/
theorem C1_gsr_disabled_keeps_global_signal_column :
    regressed_columns true = List.range 9 ∧
    regressed_columns false = [0, 1, 2, 4, 5, 6, 7, 8] ∧
    2 ∈ regressed_columns false ∧
    3 ∉ regressed_columns false ∧
    regressed_columns false ≠ [0, 1, 3, 4, 5, 6, 7, 8] := by
  decide

/-- C2 counterexample: for a 2 GiB file with 100 volumes the code's
high-memory estimate is `base * (max(L/100, 1.0) + 4) = 10`, not the
claimed `base * max(L/100, 1.0) + 4 = 6`. -/
theorem C2_counterexample :
    ¬ ((create_mem_gb (2 * 1024 ^ 3) 100).2.largemem
        = (create_mem_gb (2 * 1024 ^ 3) 100).2.filesize
            * max ((100 : ℚ) / 100) 1 + 4) := by
  norm_num [create_mem_gb]

/-- C2 (amended): the resource estimator returns base = byte size in
GiB, resampled = 4 × base, and high-memory = base × (max(L/100, 1.0) + 4)
— the `+ 4` is inside the factor multiplying the base, not added after
the product. -/
theorem C2_mem_estimates (S : ℚ) (L : ℕ) :
    (create_mem_gb S L).1 = L ∧
    (create_mem_gb S L).2.filesize = S / 1024 ^ 3 ∧
    (create_mem_gb S L).2.resampled = 4 * (create_mem_gb S L).2.filesize ∧
    (create_mem_gb S L).2.largemem
      = (create_mem_gb S L).2.filesize * (max ((L : ℚ) / 100) 1 + 4) := by
  refine ⟨rfl, rfl, ?_, rfl⟩
  show S / 1024 ^ 3 * 4 = 4 * (S / 1024 ^ 3)
  ring

/-- C3 counterexample: a pipeline configured with repetition time
`TR = 2` still cleans with `t_r = 1.2`, the constant hard-coded in
`clean_bold` — the configured sampling interval is not used. -/
theorem C3_counterexample :
    (init_func_preproc_params true 2).confound_clean.t_r ≠ 2 := by
  norm_num [init_func_preproc_params, clean_bold_params]

/-- C3 (amended): the cleaning step applies linear detrending, variance
standardization and a 0.01 high-pass cutoff, but its `t_r` parameter is
the constant 1.2 hard-coded in `clean_bold`, independent of the
repetition time supplied to the pipeline as configuration (which only
reaches the slice-timing sub-workflow). -/
theorem C3_clean_params (apply_STC : Bool) (TR : ℚ) (b c : List (List ℚ)) :
    (init_func_preproc_params apply_STC TR).confound_clean = (clean_bold b c).params ∧
    (clean_bold b c).params.detrend = true ∧
    (clean_bold b c).params.standardize = true ∧
    (clean_bold b c).params.high_pass = 1 / 100 ∧
    (clean_bold b c).params.t_r = 12 / 10 ∧
    (init_func_preproc_params apply_STC TR).stc_TR
      = (if apply_STC then some TR else none) := by
  exact ⟨rfl, rfl, rfl, rfl, rfl, rfl⟩

/-- C7: a flag-gated stage and the edges touching it are present in the
built graph exactly when its flag is true: the slice-timing node
`bold_stc_wf` (and its edges) appear in the main workflow iff
`apply_STC`, and the `GSR_confound_regression` node (and its edges)
appear in the confound workflow iff `apply_GSR`; both graphs are
functions of the configuration flags alone. -/
theorem C7_flag_gated_graph (use_syn apply_STC iterative_N4 apply_GSR : Bool) :
    ((init_func_preproc_wf use_syn apply_STC iterative_N4 apply_GSR).nodes.any
        (fun nd => nd.name == "bold_stc_wf")) = apply_STC ∧
    ((init_func_preproc_wf use_syn apply_STC iterative_N4 apply_GSR).edges.any
        (fun e => e.srcNode == "bold_stc_wf" || e.dstNode == "bold_stc_wf")) = apply_STC ∧
    ((init_bold_confs_wf apply_GSR "bold_confs_wf").nodes.any
        (fun nd => nd.name == "GSR_confound_regression")) = apply_GSR ∧
    ((init_bold_confs_wf apply_GSR "bold_confs_wf").edges.any
        (fun e => e.srcNode == "GSR_confound_regression"
          || e.dstNode == "GSR_confound_regression")) = apply_GSR := by
  cases use_syn <;> cases apply_STC <;> cases iterative_N4 <;> cases apply_GSR <;>
    exact ⟨by decide, by decide, by decide, by decide⟩

/-- C5: when the workflow is built with `apply_GSR = true` it contains
two `ConfoundRegression` instances — `confound_regression` with the flag
false and `GSR_confound_regression` with it true — whose five input
ports are fed from the same sources; their cleaned series are exposed as
the distinct outputs `cleaned_bold` and `GSR_cleaned_bold`; the workflow
has a single confound-table output, fed only by `confound_regression`;
and the table both invocations compute is the same, since the engine's
confound table does not depend on the flag. -/
theorem C5_double_regression_instance :
    (init_bold_confs_wf true "bold_confs_wf").nodes.filter
        (fun nd => nd.kind == "ConfoundRegression")
      = [⟨"confound_regression", "ConfoundRegression",
            [("apply_GSR", false), ("motioncorr_24params", false)]⟩,
         ⟨"GSR_confound_regression", "ConfoundRegression",
            [("apply_GSR", true), ("motioncorr_24params", false)]⟩] ∧
    (["movpar_file", "bold", "WM_mask", "CSF_mask", "brain_mask"].all
        (fun p =>
          (inEdges (init_bold_confs_wf true "bold_confs_wf")
              "confound_regression" p).map (fun e => (e.srcNode, e.srcPort))
            == (inEdges (init_bold_confs_wf true "bold_confs_wf")
              "GSR_confound_regression" p).map (fun e => (e.srcNode, e.srcPort))
          && ((inEdges (init_bold_confs_wf true "bold_confs_wf")
              "confound_regression" p).length == 1))) = true ∧
    inEdges (init_bold_confs_wf true "bold_confs_wf") "outputnode" "cleaned_bold"
      = [⟨"confound_regression", "cleaned_bold", "outputnode", "cleaned_bold"⟩] ∧
    inEdges (init_bold_confs_wf true "bold_confs_wf") "outputnode" "GSR_cleaned_bold"
      = [⟨"GSR_confound_regression", "cleaned_bold", "outputnode", "GSR_cleaned_bold"⟩] ∧
    inEdges (init_bold_confs_wf true "bold_confs_wf") "outputnode" "confounds_csv"
      = [⟨"confound_regression", "confounds_csv", "outputnode", "confounds_csv"⟩] ∧
    (∀ (bold movpar : List (List ℚ)) (bm wm cm : List Bool),
      (ConfoundRegression_run bold movpar bm wm cm true).map (fun r => r.confounds_csv)
        = (ConfoundRegression_run bold movpar bm wm cm false).map
            (fun r => r.confounds_csv)) := by
  refine ⟨by decide, by decide, by decide, by decide, by decide, ?_⟩
  intro bold movpar bm wm cm
  exact confounds_csv_flag_indep bold movpar bm wm cm true false

/-- C10: for either value of the global-signal flag, every
`ConfoundRegression` node in the confound workflow receives its `bold`
input from `skullstrip.skullstrip_brain` — the input series masked by
the brain mask that was resampled to EPI space — and not from the raw
`inputnode.bold`, whose only consumer is the skullstrip node itself. -/
theorem C10_regression_consumes_skullstripped_bold (apply_GSR : Bool)
    (nd : WfNode)
    (hmem : nd ∈ (init_bold_confs_wf apply_GSR "bold_confs_wf").nodes)
    (hkind : nd.kind = "ConfoundRegression") :
    inEdges (init_bold_confs_wf apply_GSR "bold_confs_wf") nd.name "bold"
      = [⟨"skullstrip", "skullstrip_brain", nd.name, "bold"⟩] ∧
    inEdges (init_bold_confs_wf apply_GSR "bold_confs_wf") "skullstrip" "in_file"
      = [⟨"inputnode", "bold", "skullstrip", "in_file"⟩] ∧
    inEdges (init_bold_confs_wf apply_GSR "bold_confs_wf") "skullstrip" "brain_mask"
      = [⟨"Brain_mask_EPI", "EPI_mask", "skullstrip", "brain_mask"⟩] ∧
    inEdges (init_bold_confs_wf apply_GSR "bold_confs_wf") "Brain_mask_EPI" "mask"
      = [⟨"inputnode", "t1_mask", "Brain_mask_EPI", "mask"⟩] ∧
    ((init_bold_confs_wf apply_GSR "bold_confs_wf").edges.filter
        (fun e => e.srcNode == "inputnode" && e.srcPort == "bold")).map
        (fun e => (e.dstNode, e.dstPort))
      = [("skullstrip", "in_file")] := by
  cases apply_GSR <;> fin_cases hmem <;>
    first
      | exact absurd hkind (by decide)
      | exact ⟨by decide, by decide, by decide, by decide, by decide⟩

/-- C10 witness: the GSR instance in the `apply_GSR = true` workflow. -/
theorem C10_witness :
    (⟨"GSR_confound_regression", "ConfoundRegression",
        [("apply_GSR", true), ("motioncorr_24params", false)]⟩ : WfNode)
      ∈ (init_bold_confs_wf true "bold_confs_wf").nodes ∧
    inEdges (init_bold_confs_wf true "bold_confs_wf")
        "GSR_confound_regression" "bold"
      = [⟨"skullstrip", "skullstrip_brain", "GSR_confound_regression", "bold"⟩] :=
  ⟨by decide,
   (C10_regression_consumes_skullstripped_bold true
      ⟨"GSR_confound_regression", "ConfoundRegression",
        [("apply_GSR", true), ("motioncorr_24params", false)]⟩
      (by decide) rfl).1⟩

/-- C8: writing the confound matrix with `write_confound_csv` and
reading the persisted table back yields the same columns in the same
order and the same rows; with the engine's fixed labels these are
exactly the 9 named columns, and the row count equals the matrix's. -/
theorem C8_confound_table_roundtrip (M : List (List ℚ)) (names : List String) :
    read_confound_table (write_confound_csv M names) = (names, M) ∧
    (write_confound_csv M names).rows.length = M.length ∧
    (write_confound_csv M csv_columns).header
      = ["", "WM_signal", "CSF_signal", "global_signal",
         "mov1", "mov2", "mov3", "rot1", "rot2", "rot3"] := by
  refine ⟨?_, ?_, rfl⟩
  · unfold read_confound_table write_confound_csv
    simp only [List.drop_succ_cons, List.drop_zero, List.singleton_append]
    rw [List.map_snd_zip _ _ (by simp)]
  · simp [write_confound_csv]

/-- A successful trace extraction yields one scalar per time-volume. -/
theorem extract_mask_trace_length (bold : List (List ℚ)) (mask : List Bool)
    (t : List ℚ) (h : extract_mask_trace bold mask = .ok t) :
    t.length = bold.length := by
  unfold extract_mask_trace at h
  split at h
  · exact Except.noConfusion h
  · cases h
    simp

/-- A nonempty mask makes the trace extraction succeed. -/
theorem extract_mask_trace_ok (bold : List (List ℚ)) (mask : List Bool)
    (h : mask.count true ≠ 0) :
    extract_mask_trace bold mask
      = .ok (bold.map (fun vol =>
          (maskedVoxels vol mask).sum / (maskedVoxels vol mask).length)) := by
  unfold extract_mask_trace
  simp [h]

/-- An empty mask makes the trace extraction fail. -/
theorem extract_mask_trace_empty (bold : List (List ℚ)) (mask : List Bool)
    (h : mask.count true = 0) :
    extract_mask_trace bold mask = .error .emptyMask := by
  unfold extract_mask_trace
  simp [h]

/-- Shape of a successful motion-parameter parse: one row per CSV data
row, 6 columns each. -/
theorem extract_rigid_movpar_shape (rows : List (List ℚ))
    (m : List (List ℚ)) (h : extract_rigid_movpar rows = .ok m) :
    m.length = rows.length - 1 ∧ ∀ r ∈ m, r.length = 6 := by
  unfold extract_rigid_movpar at h
  split at h
  · exact Except.noConfusion h
  · split at h
    · exact Except.noConfusion h
    · cases h
      refine ⟨by simp, ?_⟩
      intro r hr
      rcases List.mem_map.mp hr with ⟨row, _, rfl⟩
      simp [movparRow]

/-- Evaluation rules for the `Except` monad operations. -/
theorem except_bind_ok {ε α β : Type _} (a : α) (f : α → Except ε β) :
    (Except.ok a : Except ε α) >>= f = f a := rfl

theorem except_bind_error {ε α β : Type _} (e : ε) (f : α → Except ε β) :
    (Except.error e : Except ε α) >>= f = .error e := rfl

theorem except_map_ok {ε α β : Type _} (f : α → β) (a : α) :
    (Except.ok a : Except ε α).map f = .ok (f a) := rfl

theorem except_map_error {ε α β : Type _} (f : α → β) (e : ε) :
    (Except.error e : Except ε α).map f = .error e := rfl

theorem except_pure {ε α : Type _} (a : α) :
    (pure a : Except ε α) = .ok a := rfl

theorem Except_bind_ok {ε α β : Type _} (a : α) (f : α → Except ε β) :
    (Except.ok a : Except ε α).bind f = f a := rfl

theorem Except_bind_error {ε α β : Type _} (e : ε) (f : α → Except ε β) :
    (Except.error e : Except ε α).bind f = .error e := rfl

/-- Shape of a successful numpy row broadcast. -/
theorem broadcastRows_shape (n : ℕ) (m mb : List (List ℚ))
    (h : broadcastRows n m = .ok mb) (hrows : ∀ r ∈ m, r.length = 6) :
    mb.length = n ∧ ∀ r ∈ mb, r.length = 6 := by
  unfold broadcastRows at h
  split at h
  next heq =>
    cases h
    exact ⟨heq, hrows⟩
  next =>
    split at h
    next hone =>
      cases h
      rcases List.length_eq_one.mp hone with ⟨a, rfl⟩
      refine ⟨by simp, ?_⟩
      intro r hr
      rw [List.eq_of_mem_replicate hr]
      simpa using hrows a (by simp)
    next => exact Except.noConfusion h

/-- Shape of the assembled confound matrix: one row per entry of the
white-matter trace, 9 columns each (given 6-column motion rows). -/
theorem buildConfounds_shape (wm csf gs : List ℚ) (mov : List (List ℚ))
    (hmov : ∀ r ∈ mov, r.length = 6) :
    (buildConfounds wm csf gs mov).length = wm.length ∧
    ∀ row ∈ buildConfounds wm csf gs mov, row.length = 9 := by
  refine ⟨by simp [buildConfounds], ?_⟩
  intro row hrow
  rcases List.mem_map.mp hrow with ⟨j, _, rfl⟩
  have h6 : (mov.getD j (List.replicate 6 0)).length = 6 := by
    rw [List.getD_eq_getElem?_getD]
    cases hj : mov[j]? with
    | none => simp
    | some r => simpa using hmov r (List.getElem?_mem hj)
  rw [List.length_append, h6]
  rfl

/-- Unfolding a successful confound assembly into its five steps. -/
theorem assemble_confounds_ok (bold movpar : List (List ℚ))
    (bm wm cm : List Bool) (conf : List (List ℚ))
    (h : assemble_confounds bold movpar bm wm cm = .ok conf) :
    ∃ wmt csft gst movB,
      extract_mask_trace bold wm = .ok wmt ∧
      extract_mask_trace bold cm = .ok csft ∧
      extract_mask_trace bold bm = .ok gst ∧
      (extract_rigid_movpar movpar).bind (broadcastRows wmt.length) = .ok movB ∧
      conf = buildConfounds wmt csft gst movB := by
  unfold assemble_confounds at h
  cases hW : extract_mask_trace bold wm with
  | error e => rw [hW, except_bind_error] at h; exact Except.noConfusion h
  | ok wmt =>
    rw [hW, except_bind_ok] at h
    cases hC : extract_mask_trace bold cm with
    | error e => rw [hC, except_bind_error] at h; exact Except.noConfusion h
    | ok csft =>
      rw [hC, except_bind_ok] at h
      cases hB : extract_mask_trace bold bm with
      | error e => rw [hB, except_bind_error] at h; exact Except.noConfusion h
      | ok gst =>
        rw [hB, except_bind_ok] at h
        cases hM : extract_rigid_movpar movpar with
        | error e => rw [hM, except_bind_error] at h; exact Except.noConfusion h
        | ok mov =>
          rw [hM, except_bind_ok] at h
          cases hBr : broadcastRows wmt.length mov with
          | error e => rw [hBr, except_bind_error] at h; exact Except.noConfusion h
          | ok movB =>
            rw [hBr, except_bind_ok, except_pure] at h
            cases h
            refine ⟨wmt, csft, gst, movB, rfl, rfl, rfl, ?_, rfl⟩
            exact hBr

/-- Unfolding a successful engine run: its outputs are the persisted
table of the assembled matrix and the cleaning invocation on the
flag-selected columns. -/
theorem ConfoundRegression_run_ok (bold movpar : List (List ℚ))
    (bm wm cm : List Bool) (flag : Bool) (r : RunResult)
    (h : ConfoundRegression_run bold movpar bm wm cm flag = .ok r) :
    ∃ conf, assemble_confounds bold movpar bm wm cm = .ok conf ∧
      r.confounds_csv = write_confound_csv conf csv_columns ∧
      r.cleaned_bold = (if flag then clean_bold bold conf
        else clean_bold bold (selectColumns conf (np_r2 0 3 4 9))) := by
  unfold ConfoundRegression_run at h
  cases hA : assemble_confounds bold movpar bm wm cm with
  | error e => rw [hA] at h; exact Except.noConfusion h
  | ok conf =>
    rw [hA] at h
    cases h
    exact ⟨conf, rfl, rfl, rfl⟩

/-- An assembly failure aborts the whole run with the same error. -/
theorem ConfoundRegression_run_error (bold movpar : List (List ℚ))
    (bm wm cm : List Bool) (flag : Bool) (e : RegressionError)
    (h : assemble_confounds bold movpar bm wm cm = .error e) :
    ConfoundRegression_run bold movpar bm wm cm flag = .error e := by
  unfold ConfoundRegression_run
  rw [h]
  rfl

/-- The persisted table has one data line per matrix row. -/
theorem write_confound_csv_rows_length (M : List (List ℚ)) (names : List String) :
    (write_confound_csv M names).rows.length = M.length := by
  simp [write_confound_csv]

/-- Stripping the index column of the persisted table recovers the
matrix. -/
theorem write_confound_csv_snd (M : List (List ℚ)) (names : List String) :
    (write_confound_csv M names).rows.map Prod.snd = M := by
  unfold write_confound_csv
  exact List.map_snd_zip _ _ (by simp)

/-- Every data line of the persisted table carries a matrix row. -/
theorem write_confound_csv_mem_snd (M : List (List ℚ)) (names : List String)
    (p : ℕ × List ℚ) (hp : p ∈ (write_confound_csv M names).rows) : p.2 ∈ M := by
  rw [← write_confound_csv_snd M names]
  exact List.mem_map_of_mem Prod.snd hp

/-- C4: on every successful run, the persisted confound table has the
header cells `WM_signal, CSF_signal, global_signal, mov1..3, rot1..3`
(after the pandas index cell), one row per time-volume, 9 values per
row, its matrix is exactly the assembly [WM trace, CSF trace,
whole-brain trace, 6 motion columns] in that order, and the table does
not depend on the global-signal flag. -/
theorem C4_confound_table_shape (bold movpar : List (List ℚ))
    (bm wm cm : List Bool) (apply_GSR : Bool) (r : RunResult)
    (h : ConfoundRegression_run bold movpar bm wm cm apply_GSR = .ok r) :
    r.confounds_csv.header
      = ["", "WM_signal", "CSF_signal", "global_signal",
         "mov1", "mov2", "mov3", "rot1", "rot2", "rot3"] ∧
    r.confounds_csv.rows.length = bold.length ∧
    (∀ p ∈ r.confounds_csv.rows, p.2.length = 9) ∧
    (∃ wmt csft gst movB,
      extract_mask_trace bold wm = .ok wmt ∧
      extract_mask_trace bold cm = .ok csft ∧
      extract_mask_trace bold bm = .ok gst ∧
      (extract_rigid_movpar movpar).bind (broadcastRows wmt.length) = .ok movB ∧
      r.confounds_csv.rows.map Prod.snd = buildConfounds wmt csft gst movB) ∧
    (ConfoundRegression_run bold movpar bm wm cm true).map (fun x => x.confounds_csv)
      = (ConfoundRegression_run bold movpar bm wm cm false).map
          (fun x => x.confounds_csv) := by
  rcases ConfoundRegression_run_ok _ _ _ _ _ _ _ h with ⟨conf, hA, hcsv, -⟩
  rcases assemble_confounds_ok _ _ _ _ _ _ hA with
    ⟨wmt, csft, gst, movB, hW, hC, hB, hM, rfl⟩
  have hmov6 : ∀ rr ∈ movB, rr.length = 6 := by
    cases hE : extract_rigid_movpar movpar with
    | error e =>
      rw [hE, Except_bind_error] at hM
      exact Except.noConfusion hM
    | ok mov =>
      rw [hE, Except_bind_ok] at hM
      exact (broadcastRows_shape _ _ _ hM
        (extract_rigid_movpar_shape _ _ hE).2).2
  have hwlen : wmt.length = bold.length := extract_mask_trace_length _ _ _ hW
  have hshape := buildConfounds_shape wmt csft gst movB hmov6
  refine ⟨?_, ?_, ?_, ?_, ?_⟩
  · rw [hcsv]; rfl
  · rw [hcsv, write_confound_csv_rows_length, hshape.1, hwlen]
  · intro p hp
    rw [hcsv] at hp
    exact hshape.2 p.2 (write_confound_csv_mem_snd _ _ _ hp)
  · exact ⟨wmt, csft, gst, movB, hW, hC, hB, hM,
      by rw [hcsv, write_confound_csv_snd]⟩
  · exact confounds_csv_flag_indep bold movpar bm wm cm true false

/-- Concrete 2-volume series used to witness C4. -/
def c4_bold : List (List ℚ) := [[1, 2], [3, 4]]

/-- Concrete motion-parameter CSV (header plus two 8-field data rows)
used to witness C4. -/
def c4_movpar : List (List ℚ) :=
  [[0, 0], [0, 0, 5, 6, 7, 1, 2, 3], [1, 0, 50, 60, 70, 10, 20, 30]]

/-- The run result the engine produces on the C4 witness inputs with
`apply_GSR = false`. -/
def c4_result : RunResult :=
  { cleaned_bold :=
      { bold := c4_bold
        confounds := [[1, 2, 3 / 2, 6, 7, 1, 2, 3], [3, 4, 7 / 2, 60, 70, 10, 20, 30]]
        params := clean_bold_params
        smooth_fwhm := clean_bold_smooth_fwhm }
    confounds_csv :=
      { header := ["", "WM_signal", "CSF_signal", "global_signal",
                   "mov1", "mov2", "mov3", "rot1", "rot2", "rot3"]
        rows := [(0, [1, 2, 3 / 2, 5, 6, 7, 1, 2, 3]),
                 (1, [3, 4, 7 / 2, 50, 60, 70, 10, 20, 30])] } }

/-- C4 witness: a concrete successful run, with the shape facts derived
through `C4_confound_table_shape`. -/
theorem C4_witness :
    ConfoundRegression_run c4_bold c4_movpar [true, true] [true, false]
        [false, true] false = .ok c4_result ∧
    c4_result.confounds_csv.header
      = ["", "WM_signal", "CSF_signal", "global_signal",
         "mov1", "mov2", "mov3", "rot1", "rot2", "rot3"] ∧
    c4_result.confounds_csv.rows.length = 2 :=
  have hrun : ConfoundRegression_run c4_bold c4_movpar [true, true] [true, false]
      [false, true] false = .ok c4_result := by
    norm_num [ConfoundRegression_run, assemble_confounds, extract_mask_trace,
      maskedVoxels, extract_rigid_movpar, movparRow, broadcastRows, buildConfounds,
      write_confound_csv, csv_columns, selectColumns, np_r2, clean_bold,
      c4_bold, c4_movpar, c4_result, List.filterMap_cons, List.range_succ,
      Except.map, bind, Except.bind, pure, Except.pure]
  ⟨hrun,
   (C4_confound_table_shape _ _ _ _ _ _ _ hrun).1,
   by rw [(C4_confound_table_shape _ _ _ _ _ _ _ hrun).2.1]; rfl⟩

/-- Any empty mask aborts the confound assembly (the WM mask is read
first, then CSF, then the whole-brain mask). -/
theorem assemble_error_of_empty_mask (bold movpar : List (List ℚ))
    (bm wm cm : List Bool)
    (h : wm.count true = 0 ∨ cm.count true = 0 ∨ bm.count true = 0) :
    ∃ e, assemble_confounds bold movpar bm wm cm = .error e := by
  unfold assemble_confounds
  rcases h with h | h | h
  · exact ⟨.emptyMask, by rw [extract_mask_trace_empty _ _ h, except_bind_error]⟩
  · cases hW : extract_mask_trace bold wm with
    | error e => exact ⟨e, by rw [except_bind_error]⟩
    | ok wmt =>
      exact ⟨.emptyMask, by
        rw [except_bind_ok, extract_mask_trace_empty _ _ h, except_bind_error]⟩
  · cases hW : extract_mask_trace bold wm with
    | error e => exact ⟨e, by rw [except_bind_error]⟩
    | ok wmt =>
      cases hC : extract_mask_trace bold cm with
      | error e => exact ⟨e, by rw [except_bind_ok, except_bind_error]⟩
      | ok csft =>
        exact ⟨.emptyMask, by
          rw [except_bind_ok, except_bind_ok,
            extract_mask_trace_empty _ _ h, except_bind_error]⟩

/-- A well-formed motion CSV (nonempty, all data rows within 8 fields)
parses successfully into its data rows. -/
theorem extract_rigid_movpar_ok (rows : List (List ℚ)) (hne : rows ≠ [])
    (hb : ∀ row ∈ rows.drop 1, row.length ≤ 8) :
    extract_rigid_movpar rows = .ok ((rows.drop 1).map movparRow) := by
  have hany : ((rows.drop 1).any fun row => decide (8 < row.length)) = false := by
    rw [List.any_eq_false]
    intro row hrow
    simpa using Nat.not_lt.mpr (hb row hrow)
  unfold extract_rigid_movpar
  rw [if_neg (by simpa using hne),
    if_neg (by simp only [hany]; exact Bool.false_ne_true)]

/-- C6 counterexample: a motion table whose single data row does NOT
match the 3-volume series is silently broadcast to every row — the run
succeeds and a (misaligned) confound table is produced, instead of the
claimed error with no table written. -/
theorem C6_counterexample :
    ([[0, 0], [0, 0, 5, 6, 7, 1, 2, 3]] : List (List ℚ)).length - 1 = 1 ∧
    ([[1], [2], [3]] : List (List ℚ)).length = 3 ∧
    exceptOk (ConfoundRegression_run [[1], [2], [3]]
      [[0, 0], [0, 0, 5, 6, 7, 1, 2, 3]] [true] [true] [true] false) = true := by
  refine ⟨rfl, rfl, ?_⟩
  norm_num [ConfoundRegression_run, assemble_confounds, extract_mask_trace,
    maskedVoxels, extract_rigid_movpar, movparRow, broadcastRows, buildConfounds,
    write_confound_csv, csv_columns, selectColumns, np_r2, clean_bold, exceptOk,
    List.filterMap_cons, List.range_succ, Except.map, bind, Except.bind,
    pure, Except.pure]

/-- C6 (amended): an empty mask aborts the run before any table is
produced; a motion table whose data row count differs from the volume
count also aborts before any table is produced — EXCEPT when the table
has exactly one data row, which numpy broadcasting silently replicates
onto every volume. -/
theorem C6_failure_modes :
    (∀ (bold movpar : List (List ℚ)) (bm wm cm : List Bool) (flag : Bool),
      wm.count true = 0 ∨ cm.count true = 0 ∨ bm.count true = 0 →
      exceptOk (ConfoundRegression_run bold movpar bm wm cm flag) = false) ∧
    (∀ (bold movpar : List (List ℚ)) (bm wm cm : List Bool) (flag : Bool),
      movpar ≠ [] →
      (∀ row ∈ movpar.drop 1, row.length ≤ 8) →
      wm.count true ≠ 0 → cm.count true ≠ 0 → bm.count true ≠ 0 →
      movpar.length - 1 ≠ bold.length → movpar.length - 1 ≠ 1 →
      ConfoundRegression_run bold movpar bm wm cm flag
        = .error .broadcastMismatch) := by
  constructor
  · intro bold movpar bm wm cm flag h
    rcases assemble_error_of_empty_mask bold movpar bm wm cm h with ⟨e, he⟩
    rw [ConfoundRegression_run_error _ _ _ _ _ _ _ he]
    rfl
  · intro bold movpar bm wm cm flag hne hb hwm hcm hbm hmis hone
    have hE := extract_rigid_movpar_ok movpar hne hb
    have hmlen : ((movpar.drop 1).map movparRow).length = movpar.length - 1 := by
      simp
    have hBr : ∀ n, n = bold.length →
        broadcastRows n ((movpar.drop 1).map movparRow)
          = .error .broadcastMismatch := by
      intro n hn
      unfold broadcastRows
      rw [if_neg (by rw [hmlen, hn]; exact hmis), if_neg (by rw [hmlen]; exact hone)]
    apply ConfoundRegression_run_error
    unfold assemble_confounds
    rw [extract_mask_trace_ok _ _ hwm, except_bind_ok,
      extract_mask_trace_ok _ _ hcm, except_bind_ok,
      extract_mask_trace_ok _ _ hbm, except_bind_ok,
      hE, except_bind_ok, hBr _ (by simp), except_bind_error]

/-- C6 witness: an empty WM mask makes the run fail with no output, and
a 4-row motion table against a 1-volume series fails with the numpy
broadcast error. -/
theorem C6_witness :
    exceptOk (ConfoundRegression_run [[1]] [[0, 0], [0, 0, 1]]
      [true] [false] [true] false) = false ∧
    ConfoundRegression_run [[1]]
        [[0, 0], [0, 0, 1], [0, 0, 2], [0, 0, 3]] [true] [true] [true] false
      = .error .broadcastMismatch :=
  ⟨C6_failure_modes.1 [[1]] [[0, 0], [0, 0, 1]] [true] [false] [true] false
      (Or.inl (by decide)),
   C6_failure_modes.2 [[1]] [[0, 0], [0, 0, 1], [0, 0, 2], [0, 0, 3]]
      [true] [true] [true] false (by simp) (by simp) (by decide) (by decide)
      (by decide) (by simp) (by simp)⟩

/-- For k < 6, column k of a parsed motion row is field k+2 of the CSV
row (or the zero fill when the row is shorter). -/
theorem movparRow_getD (row : List ℚ) (k : ℕ) (hk : k < 6) :
    (movparRow row).getD k 0 = row.getD (k + 2) 0 := by
  unfold movparRow
  rw [List.getD_eq_getElem?_getD, List.getElem?_map, List.getElem?_range hk]
  rfl

/-- C9: the motion-parameter parse drops the header row and the first
two fields of every data row, yielding a `(rows-1) × 6` matrix whose
entry `(j, k)` is field `k+2` of data row `j` — with missing trailing
fields silently left at zero — and it fails (out-of-bounds column
write) exactly when some data row has more than 8 fields. -/
theorem C9_movpar_parse (rows : List (List ℚ)) (hne : rows ≠ []) :
    ((∀ row ∈ rows.drop 1, row.length ≤ 8) →
      ∃ m, extract_rigid_movpar rows = .ok m ∧
        m.length = rows.length - 1 ∧
        (∀ r ∈ m, r.length = 6) ∧
        (∀ j k, k < 6 →
          (m.getD j []).getD k 0 = (rows.getD (j + 1) []).getD (k + 2) 0)) ∧
    ((∃ row ∈ rows.drop 1, 8 < row.length) →
      extract_rigid_movpar rows = .error .indexError) := by
  constructor
  · intro hb
    refine ⟨(rows.drop 1).map movparRow, extract_rigid_movpar_ok rows hne hb,
      by simp, ?_, ?_⟩
    · intro r hr
      rcases List.mem_map.mp hr with ⟨row, -, rfl⟩
      simp [movparRow]
    · intro j k hk
      have hdrop : ((rows.drop 1).map movparRow)[j]? = (rows[j + 1]?).map movparRow := by
        rw [List.getElem?_map, List.getElem?_drop, Nat.add_comm 1 j]
      rw [List.getD_eq_getElem?_getD ((rows.drop 1).map movparRow) j, hdrop,
        List.getD_eq_getElem?_getD rows (j + 1)]
      cases hj : rows[j + 1]? with
      | none => simp
      | some row =>
        simp only [Option.map_some', Option.getD_some]
        exact movparRow_getD row k hk
  · rintro ⟨row, hrow, hlen⟩
    have hany : ((rows.drop 1).any fun row => decide (8 < row.length)) = true := by
      rw [List.any_eq_true]
      exact ⟨row, hrow, by simpa using hlen⟩
    unfold extract_rigid_movpar
    rw [if_neg (by simpa using hne), if_pos (by simp only [hany])]

/-- C9 witness: a header plus one full and one short data row parse into
a 2 × 6 matrix with the short row zero-filled; a 9-field data row makes
the parse fail. -/
theorem C9_witness :
    extract_rigid_movpar [[9, 9, 9], [0, 0, 10, 20, 30, 40, 50, 60], [7]]
      = .ok [[10, 20, 30, 40, 50, 60], [0, 0, 0, 0, 0, 0]] ∧
    extract_rigid_movpar [[0], [1, 2, 3, 4, 5, 6, 7, 8, 9]]
      = .error .indexError :=
  have h1 := (C9_movpar_parse [[9, 9, 9], [0, 0, 10, 20, 30, 40, 50, 60], [7]]
    (by simp)).1 (by simp)
  ⟨by
    rcases h1 with ⟨m, hm, -, -, -⟩
    have hval := hm
    norm_num [extract_rigid_movpar, movparRow, List.range_succ] at hval
    rw [hm, ← hval],
   (C9_movpar_parse [[0], [1, 2, 3, 4, 5, 6, 7, 8, 9]] (by simp)).2
     ⟨[1, 2, 3, 4, 5, 6, 7, 8, 9], by simp, by simp⟩⟩
example :
    (ConfoundRegression_run [[1, 2], [3, 4]] [[0, 0], [0, 0, 5, 6, 7, 1, 2, 3]]
        [true, true] [true, false] [false, true] false).map
      (fun r => r.confounds_csv.rows.map Prod.snd)
    = .ok [[1, 2, 3 / 2, 5, 6, 7, 1, 2, 3], [3, 4, 7 / 2, 5, 6, 7, 1, 2, 3]] := by
  norm_num [ConfoundRegression_run, assemble_confounds, extract_mask_trace,
    maskedVoxels, extract_rigid_movpar, movparRow, broadcastRows, buildConfounds,
    write_confound_csv, csv_columns, List.filterMap_cons, List.range_succ,
    Except.map, bind, Except.bind, pure, Except.pure]
